import Mathlib

/-!
Shallow embedding of the K-line ECU UART driver
(src/src/drv/lpc15xx/EcuUartLPC15xx.cpp) and proofs of its
specified properties.

Registers are modelled as natural numbers (32-bit register values are
below 2 ^ 32; all operations used by the driver are bitwise, so Nat
land/lor/xor coincide with the C uint32_t operations on such values).
The hardware peripheral's observable behaviour (status polls, the
receive data register) is modelled as an explicit environment: a byte
queue for the receive path and a trace of per-iteration poll
observations for the busy-wait loops.
-/

namespace EcuUart

/-- Pin constant from the source: TxPin = 8. -/
def TxPin : Nat := 8

/-- Pin constant from the source: RxPin = 7. -/
def RxPin : Nat := 7

/-- Pin constant from the source: RxPort = 0. -/
def RxPort : Nat := 0

/-- Pin constant from the source: TxPort = 0. -/
def TxPort : Nat := 0

/-- The computed pin-assignment word from the source:
PinAssign = ((RxPin << 16) + (RxPort * 32)) | ((TxPin << 8) + (TxPort * 32)). -/
def PinAssign : Nat := ((RxPin <<< 16) + RxPort * 32) ||| ((TxPin <<< 8) + TxPort * 32)

/-- All 32 bits set; used to express a C bitwise complement of a 32-bit mask. -/
def mask32 : Nat := 0xFFFFFFFF

/-- Modelled from the spec: GPIO pin-configuration flag for hysteresis input
(GpioDrv.h is not part of the analysed sources; the exact value is immaterial
to every claim). -/
def GPIO_HYSTERESIS : Nat := 0x20

/-- Modelled from the spec: GPIO pin-configuration flag for open-drain output
(GpioDrv.h is not part of the analysed sources; the exact value is immaterial
to every claim). -/
def GPIO_OPEN_DRAIN : Nat := 0x400

/-- Modelled from the spec: GPIO direction code for an input pin. -/
def GPIO_INPUT : Nat := 0

/-- Modelled from the spec: GPIO direction code for an output pin. -/
def GPIO_OUTPUT : Nat := 1

/-- The hardware state the driver touches: the switch-matrix pin-assignment
register, the clock/reset registers written by configure, the GPIO
configuration/direction/output state of the two fixed pins, the UART status
register, and the receive-path byte queue. -/
structure HwState where
  pinassign1 : Nat
  sysahbclkctrl1 : Nat
  presetctrl1 : Nat
  uartclkdiv : Nat
  rxPinCfg : Nat
  txPinCfg : Nat
  rxPinDir : Nat
  txPinDir : Nat
  txPinOut : Nat
  stat : Nat
  rxQueue : List Nat
deriving DecidableEq, Repr

/-- Modelled from the spec: the GPIO capability's pin-configuration primitive
(GpioDrv.h is not in the analysed sources). It stores the electrical-mode word
for the addressed pin; the driver only ever addresses the two fixed pins. -/
def GPIOPinConfig (port pin mode : Nat) (s : HwState) : HwState :=
  if port == RxPort && pin == RxPin then { s with rxPinCfg := mode }
  else if port == TxPort && pin == TxPin then { s with txPinCfg := mode }
  else s

/-- Modelled from the spec: the GPIO capability's direction primitive. -/
def GPIOSetDir (port pin dir : Nat) (s : HwState) : HwState :=
  if port == RxPort && pin == RxPin then { s with rxPinDir := dir }
  else if port == TxPort && pin == TxPin then { s with txPinDir := dir }
  else s

/-- Modelled from the spec: the GPIO capability's output-level write. -/
def GPIOPinWrite (port pin bit : Nat) (s : HwState) : HwState :=
  if port == TxPort && pin == TxPin then { s with txPinOut := bit } else s

/-- EcuUart::setBit from the source: drives the TX pin; when the
INVERT_OUTPUT build variant is active it writes (bit ? 0 : 1), otherwise it
writes bit directly. The build-time conditional is modelled as the boolean
parameter invertOutput. -/
def setBit (invertOutput : Bool) (bit : Nat) (s : HwState) : HwState :=
  if invertOutput then GPIOPinWrite TxPort TxPin (if bit != 0 then 0 else 1) s
  else GPIOPinWrite TxPort TxPin bit s

/-- EcuUart::configure from the source: RX pin config (hysteresis iff
INVERT_OUTPUT), TX pin config (open-drain iff OPEN_DRAIN), directions,
UART1 clock enable, peripheral reset pulse, clock divider, then drive the
K-line high via setBit(1). The two build-time conditionals are the boolean
parameters. -/
def configure (invertOutput openDrain : Bool) (s : HwState) : HwState :=
  let s1 := GPIOPinConfig RxPort RxPin (if invertOutput then GPIO_HYSTERESIS else 0) s
  let s2 := GPIOPinConfig TxPort TxPin (if openDrain then GPIO_OPEN_DRAIN else 0) s1
  let s3 := GPIOSetDir RxPort RxPin GPIO_INPUT s2
  let s4 := GPIOSetDir TxPort TxPin GPIO_OUTPUT s3
  let s5 := { s4 with sysahbclkctrl1 := s4.sysahbclkctrl1 ||| (1 <<< 18) }
  let s6 := { s5 with presetctrl1 := s5.presetctrl1 ||| (1 <<< 18) }
  let s7 := { s6 with presetctrl1 := s6.presetctrl1 &&& (mask32 ^^^ (1 <<< 18)) }
  let s8 := { s7 with uartclkdiv := 1 }
  setBit invertOutput 1 s8

/-- EcuUart::setBitBang from the source, action on the PINASSIGN1 register
value: val = false clears the middle two bytes and ors in PinAssign;
val = true ors in 0x00FFFF00. -/
def setBitBangReg (val : Bool) (p : Nat) : Nat :=
  if !val then (p &&& 0xFF0000FF) ||| PinAssign
  else p ||| 0x00FFFF00

/-- EcuUart::setBitBang from the source as a state transformer: it rewrites
only the PINASSIGN1 pin-multiplexing register. -/
def setBitBang (val : Bool) (s : HwState) : HwState :=
  { s with pinassign1 := setBitBangReg val s.pinassign1 }

/-- Modelled from the spec: the logical K-line level presented by the TX pin.
With the inverting transistor driver (INVERT_OUTPUT) the electrical pin level
is inverted by the driver hardware, so the logical line level is the inverse
of the pin level; otherwise it is the pin level itself. -/
def txLogicalLevel (invertOutput : Bool) (s : HwState) : Nat :=
  if invertOutput then (if s.txPinOut = 0 then 1 else 0) else s.txPinOut

/-- A concrete all-zero hardware state, used as an explicit input below. -/
def hw0 : HwState :=
  { pinassign1 := 0, sysahbclkctrl1 := 0, presetctrl1 := 0, uartclkdiv := 0,
    rxPinCfg := 0, txPinCfg := 0, rxPinDir := 0, txPinDir := 0, txPinOut := 0,
    stat := 0, rxQueue := [] }

/- Bitwise helper lemmas. -/

/-- Masking with M after oring in a value T disjoint from M, on top of a value
already of the form (p and M) or A, restores that value. -/
theorem mask_restore (p A M T : Nat) (hT : T &&& M = 0) :
    ((((p &&& M) ||| A) ||| T) &&& M) ||| A = (p &&& M) ||| A := by
  apply Nat.eq_of_testBit_eq
  intro i
  have h : (T &&& M).testBit i = Nat.testBit 0 i := by rw [hT]
  simp only [Nat.testBit_land, Nat.testBit_lor, Nat.zero_testBit] at h ⊢
  cases hp : p.testBit i <;> cases hm : M.testBit i <;> cases ha : A.testBit i <;>
    cases ht : T.testBit i <;> simp_all

/-- Oring a constant in and then masking with that constant yields the
constant (absorption). -/
theorem lor_land_self (x c : Nat) : (x ||| c) &&& c = c := by
  apply Nat.eq_of_testBit_eq
  intro i
  simp only [Nat.testBit_land, Nat.testBit_lor]
  cases x.testBit i <;> cases c.testBit i <;> rfl

/-- The false branch of setBitBangReg is idempotent on the register value. -/
theorem setBitBangReg_false_idem (p : Nat) :
    setBitBangReg false (setBitBangReg false p) = setBitBangReg false p := by
  have h := mask_restore p PinAssign 0xFF0000FF 0 (by rfl)
  simpa [setBitBangReg] using h

/-- The true branch of setBitBangReg is idempotent on the register value. -/
theorem setBitBangReg_true_idem (p : Nat) :
    setBitBangReg true (setBitBangReg true p) = setBitBangReg true p := by
  show (p ||| 0x00FFFF00) ||| 0x00FFFF00 = p ||| 0x00FFFF00
  apply Nat.eq_of_testBit_eq
  intro i
  simp only [Nat.testBit_lor]
  cases p.testBit i <;> cases (0x00FFFF00 : Nat).testBit i <;> rfl

/-- C3 -- The round-trip claim as stated fails on the code: starting from
PINASSIGN1 = 0, setBitBang(true) then setBitBang(false) leaves the register
holding PinAssign, not the original 0. -/
theorem setBitBang_roundtrip_counterexample :
    (setBitBang false (setBitBang true hw0)).pinassign1 ≠ hw0.pinassign1 := by
  decide

/-- C3 (amended) -- For any state whose pin-multiplexing register already
holds a UART-routed mapping (any value produced by setBitBang(false)),
setBitBang(true) followed by setBitBang(false) restores the exact
pin-multiplexing register value present before the first call. -/
theorem setBitBang_roundtrip_from_uart (s : HwState) :
    setBitBang false (setBitBang true (setBitBang false s)) = setBitBang false s := by
  cases s
  simp only [setBitBang, setBitBangReg, Bool.not_true, Bool.not_false, if_true, if_neg,
    HwState.mk.injEq, and_true, true_and, if_pos]
  exact mask_restore _ PinAssign 0xFF0000FF 0x00FFFF00 (by rfl)

/-- C6 -- setBitBang is idempotent: for each mode-flag value, calling it
twice in immediate succession leaves the state exactly as one call does. -/
theorem setBitBang_idempotent (v : Bool) (s : HwState) :
    setBitBang v (setBitBang v s) = setBitBang v s := by
  cases v
  · cases s
    simp only [setBitBang, HwState.mk.injEq, and_true, true_and]
    exact setBitBangReg_false_idem _
  · cases s
    simp only [setBitBang, HwState.mk.injEq, and_true, true_and]
    exact setBitBangReg_true_idem _

/-- C8 -- Frame property of setBitBang: for both argument values it writes
only the pin-multiplexing register; the clock-control, reset-control,
clock-divider, pin-configuration, pin-direction and pin-output state set by
configure, and the receive path, are all unchanged. -/
theorem setBitBang_frame (v : Bool) (s : HwState) :
    (setBitBang v s).sysahbclkctrl1 = s.sysahbclkctrl1 ∧
    (setBitBang v s).presetctrl1 = s.presetctrl1 ∧
    (setBitBang v s).uartclkdiv = s.uartclkdiv ∧
    (setBitBang v s).rxPinCfg = s.rxPinCfg ∧
    (setBitBang v s).txPinCfg = s.txPinCfg ∧
    (setBitBang v s).rxPinDir = s.rxPinDir ∧
    (setBitBang v s).txPinDir = s.txPinDir ∧
    (setBitBang v s).txPinOut = s.txPinOut ∧
    (setBitBang v s).stat = s.stat ∧
    (setBitBang v s).rxQueue = s.rxQueue :=
  ⟨rfl, rfl, rfl, rfl, rfl, rfl, rfl, rfl, rfl, rfl⟩

/-- Modelled from the spec: the receive-ready bit of the UART status register
(UartLPC15xx.h is not in the analysed sources; the spec calls it the
receive-ready status bit). -/
def UART_STAT_RXRDY : Nat := 1

/-- EcuUart::ready from the source: returns whether the receive-ready status
bit is set. Reading the status register has no side effect, so the call
returns the unchanged state alongside its boolean result. -/
def ready (s : HwState) : Bool × HwState :=
  (decide (s.stat &&& UART_STAT_RXRDY ≠ 0), s)

/-- EcuUart::get from the source: reads one byte from the receive data
register. Modelled from the spec on the receive path: the register hands out
the oldest pending byte and consumes it; with nothing pending it returns
stale data, modelled as 0. -/
def get (s : HwState) : Nat × HwState :=
  (s.rxQueue.headD 0, { s with rxQueue := s.rxQueue.tail })

/-- EcuUart::send from the source: busy-wait on the transmit-ready status
bit, then write the byte to the transmit register. The environment is the
trace of transmit-ready values observed at each poll; the result is the list
of bytes written to the transmit data register, or none when the trace ends
with the loop still spinning (the peripheral never reported ready within the
observed window: no write happened). -/
def send (txReadyPolls : List Bool) (byte : Nat) : Option (List Nat) :=
  match txReadyPolls with
  | [] => none
  | r :: rest => if r then some [byte] else send rest byte

/-- The echo-timeout constant from the source: 20 ms. -/
def EchoTimeout : Nat := 20

/-- SysTick control-register flag from the source (CMSIS constant). -/
def SysTick_CTRL_CLKSOURCE_Msk : Nat := 4

/-- SysTick control-register flag from the source (CMSIS constant). -/
def SysTick_CTRL_ENABLE_Msk : Nat := 1

/-- The SysTick countdown timer state programmed by getEcho. -/
structure SysTickState where
  load : Nat
  val : Nat
  ctrl : Nat
deriving DecidableEq, Repr

/-- The poll loop of EcuUart::getEcho from the source. Each trace element is
the pair (receive-ready, SysTick count-expired) observed in one loop
iteration; per iteration the loop checks ready first, and only on not-ready
checks the timeout flag. On ready it reads one byte from the receive queue
and compares it with the sent byte; on timeout it returns false without
reading; an exhausted trace means the loop is still spinning (none). The
result is the loop outcome paired with the receive queue left behind. -/
def getEchoLoop (byte : Nat) : List (Bool × Bool) → List Nat → Option Bool × List Nat
  | [], q => (none, q)
  | (rdy, expired) :: rest, q =>
    if rdy then (some (q.headD 0 == byte), q.tail)
    else if expired then (some false, q)
    else getEchoLoop byte rest q

/-- EcuUart::getEcho from the source: program SysTick with a 20 ms load
(EchoTimeout scaled by the core clock), start it, then run the poll loop.
Returns the SysTick state it programmed together with the loop outcome and
the remaining receive queue. -/
def getEcho (systemCoreClock byte : Nat) (polls : List (Bool × Bool))
    (q : List Nat) : SysTickState × (Option Bool × List Nat) :=
  (⟨EchoTimeout * (systemCoreClock / 1000), 0,
    SysTick_CTRL_CLKSOURCE_Msk ||| SysTick_CTRL_ENABLE_Msk⟩,
   getEchoLoop byte polls q)

/-- The receive-ready condition wins the race in a poll trace: some iteration
observes ready, and no strictly earlier iteration observed not-ready with the
timeout flag raised. A tie (ready and expired in the same iteration) counts
as a win for ready. -/
def readyWins : List (Bool × Bool) → Bool
  | [] => false
  | (rdy, expired) :: rest => rdy || (!expired && readyWins rest)

/-- The timeout wins the race in a poll trace: some iteration observes
not-ready with the timeout flag raised, and no earlier iteration observed
ready. -/
def timeoutWins : List (Bool × Bool) → Bool
  | [] => false
  | (rdy, expired) :: rest => !rdy && (expired || timeoutWins rest)

/-- When ready wins the race, the loop reads exactly one byte and compares
it with the sent byte. -/
theorem getEchoLoop_readyWins (byte : Nat) (polls : List (Bool × Bool))
    (q : List Nat) (h : readyWins polls = true) :
    getEchoLoop byte polls q = (some (q.headD 0 == byte), q.tail) := by
  induction polls with
  | nil => exact absurd h (by simp [readyWins])
  | cons hd rest ih =>
    obtain ⟨rdy, expired⟩ := hd
    cases rdy
    · simp only [readyWins] at h
      simp only [Bool.false_or, Bool.and_eq_true] at h
      obtain ⟨hexp, hrest⟩ := h
      cases expired
      · simpa [getEchoLoop] using ih hrest
      · simp at hexp
    · simp [getEchoLoop]

/-- When the timeout wins the race, the loop returns false and leaves the
receive queue untouched. -/
theorem getEchoLoop_timeoutWins (byte : Nat) (polls : List (Bool × Bool))
    (q : List Nat) (h : timeoutWins polls = true) :
    getEchoLoop byte polls q = (some false, q) := by
  induction polls with
  | nil => exact absurd h (by simp [timeoutWins])
  | cons hd rest ih =>
    obtain ⟨rdy, expired⟩ := hd
    cases rdy
    · simp only [timeoutWins] at h
      simp only [Bool.not_false, Bool.true_and] at h
      cases expired
      · simp only [Bool.false_or] at h
        simpa [getEchoLoop] using ih h
      · simp [getEchoLoop]
    · simp [timeoutWins] at h

/-- Modelled from the spec: the framing/parity error flags of the UART status
register (mask 0x6000) are write-one-to-clear, so a status write clears
exactly the flags of that mask at which the written value has a 1 bit; the
spec's clear description states that writing the flags back makes them read
back cleared. -/
def statWrite (stat v : Nat) : Nat := stat &&& (mask32 ^^^ (v &&& 0x6000))

/-- EcuUart::clear from the source: if STAT reports a framing or parity
error (mask 0x6000), write the flags back (STAT |= 0x6000) and read one byte
from the receive data register; otherwise do nothing. -/
def clear (s : HwState) : HwState :=
  if s.stat &&& 0x6000 ≠ 0 then
    let s1 := { s with stat := statWrite s.stat (s.stat ||| 0x6000) }
    (get s1).2
  else s

/-- A concrete state whose status register reports a framing error and a
parity error, with two bytes pending on the receive path. -/
def hwErr : HwState := { hw0 with stat := 0x6000, rxQueue := [9, 10] }

/-- Writing the error flags back clears them: after the status write
performed by clear, the framing/parity field of STAT reads zero. -/
theorem statWrite_clears (stat : Nat) :
    statWrite stat (stat ||| 0x6000) &&& 0x6000 = 0 := by
  have h6 : (0x6000 : Nat) &&& mask32 = 0x6000 := by decide
  apply Nat.eq_of_testBit_eq
  intro i
  have hcm := congrArg (fun n => n.testBit i) h6
  simp only [Nat.testBit_land] at hcm
  simp only [statWrite, Nat.testBit_land, Nat.testBit_xor, Nat.testBit_lor,
    Nat.zero_testBit]
  cases hs : stat.testBit i <;> cases hc : (0x6000 : Nat).testBit i <;>
    cases hm : mask32.testBit i <;> simp_all

/-- C1 -- If the receive-ready condition wins the race against the 20 ms
countdown (including the tie, where readiness and expiry are observable in
the same poll iteration, because ready is checked first), getEcho consumes
exactly one byte from the receive register and returns true if and only if
that byte equals the sent byte. -/
theorem getEcho_ready_wins (systemCoreClock byte : Nat)
    (polls : List (Bool × Bool)) (q : List Nat) (h : readyWins polls = true) :
    (getEcho systemCoreClock byte polls q).2 = (some (q.headD 0 == byte), q.tail) :=
  getEchoLoop_readyWins byte polls q h

/-- Witness for C1 at a concrete tie input: ready and expired are observed
in the same iteration, the byte 65 is consumed and matches. -/
theorem getEcho_ready_wins_witness :
    readyWins [(true, true)] = true ∧
    (getEcho 12000000 65 [(true, true)] [65]).2 = (some true, []) :=
  ⟨by decide, by simpa using getEcho_ready_wins 12000000 65 [(true, true)] [65] (by decide)⟩

/-- C2 -- If the countdown's expired flag is observed (on a not-ready
iteration) before the receive-ready condition becomes true, getEcho returns
false and performs no read: the receive path is unchanged. -/
theorem getEcho_timeout (systemCoreClock byte : Nat)
    (polls : List (Bool × Bool)) (q : List Nat) (h : timeoutWins polls = true) :
    (getEcho systemCoreClock byte polls q).2 = (some false, q) :=
  getEchoLoop_timeoutWins byte polls q h

/-- Witness for C2 at a concrete input: one idle iteration, then the timeout
flag; the pending byte 7 stays on the receive path. -/
theorem getEcho_timeout_witness :
    timeoutWins [(false, false), (false, true)] = true ∧
    (getEcho 12000000 7 [(false, false), (false, true)] [7]).2 = (some false, [7]) :=
  ⟨by decide, getEcho_timeout 12000000 7 [(false, false), (false, true)] [7] (by decide)⟩

/-- C10 -- When getEcho returns false because the received byte differs from
the sent byte (ready won the race, so the failure is not a timeout), the
mismatching byte has still been consumed from the receive register. -/
theorem getEcho_mismatch_consumes (systemCoreClock byte : Nat)
    (polls : List (Bool × Bool)) (q : List Nat) (h : readyWins polls = true)
    (hne : q.headD 0 ≠ byte) :
    (getEcho systemCoreClock byte polls q).2 = (some false, q.tail) := by
  have hl := getEchoLoop_readyWins byte polls q h
  have hb : (q.headD 0 == byte) = false := by simpa using hne
  rw [hb] at hl
  exact hl

/-- Witness for C10 at a concrete input: byte 4 arrives while 5 was sent;
the result is false and the byte is gone from the receive path. -/
theorem getEcho_mismatch_consumes_witness :
    (getEcho 12000000 5 [(true, false)] [4]).2 = (some false, []) :=
  getEcho_mismatch_consumes 12000000 5 [(true, false)] [4] (by decide) (by decide)

/-- C7 -- send writes nothing to the transmit data register until a poll
observes the transmit-ready bit (an all-false trace produces no write and no
return), and once transmit-ready is observed it writes exactly the given
byte once: it terminates if and only if the ready bit eventually shows. -/
theorem send_characterization (txReadyPolls : List Bool) (byte : Nat) :
    send txReadyPolls byte =
      if txReadyPolls.any id then some [byte] else none := by
  induction txReadyPolls with
  | nil => rfl
  | cons r rest ih => cases r <;> simp [send, ih]

/-- C9 -- ready is side-effect-free: it returns the state unchanged, and a
repeated call on that unchanged state (no intervening get, no new data)
returns the same boolean value. -/
theorem ready_pure (s : HwState) :
    (ready s).2 = s ∧ (ready ((ready s).2)).1 = (ready s).1 :=
  ⟨rfl, rfl⟩

/-- C5 -- After configure, the TX pin holds the value written by setBit(1):
electrically low exactly when the output-inversion build variant is active,
and the logical K-line level is high in both build variants. -/
theorem configure_tx_idle_high (invertOutput openDrain : Bool) (s : HwState) :
    (configure invertOutput openDrain s).txPinOut = (if invertOutput then 0 else 1) ∧
    txLogicalLevel invertOutput (configure invertOutput openDrain s) = 1 := by
  cases invertOutput <;> cases openDrain <;>
    simp [configure, GPIOPinConfig, GPIOSetDir, GPIOPinWrite, setBit, txLogicalLevel,
      RxPort, RxPin, TxPort, TxPin]

/-- C4 -- clear is a no-op (no register write, no byte consumed) when
neither the framing-error nor the parity-error flag is set; when one is set,
the flags read back cleared and exactly one byte is discarded from the
receive register. -/
theorem clear_spec (s : HwState) :
    (s.stat &&& 0x6000 = 0 → clear s = s) ∧
    (s.stat &&& 0x6000 ≠ 0 →
      (clear s).stat &&& 0x6000 = 0 ∧ (clear s).rxQueue = s.rxQueue.tail) := by
  constructor
  · intro h
    simp [clear, h]
  · intro h
    refine ⟨?_, ?_⟩
    · simp only [clear, if_pos h, get]
      exact statWrite_clears s.stat
    · simp [clear, if_pos h, get]

/-- Witness for C4 at two concrete inputs: the all-clean state is left
untouched, and the state with both error flags set and two pending bytes
ends with the flags cleared and one byte discarded. -/
theorem clear_spec_witness :
    clear hw0 = hw0 ∧
    ((clear hwErr).stat &&& 0x6000 = 0 ∧ (clear hwErr).rxQueue = hwErr.rxQueue.tail) :=
  ⟨(clear_spec hw0).1 (by decide), (clear_spec hwErr).2 (by decide)⟩

end EcuUart
